import Mathlib

/-!
Shallow embedding of the gscpy repository (GRASS GIS helper scripts for a
Sentinel-1 processing workflow), translated from the Python sources under
src/gscpy.  Pure translation logic becomes Lean functions; calls into external
systems (pyroSAR, sentinelsat, GRASS run_command, the filesystem) are modelled
as explicit effect values or oracle parameters, so that each module's own
behaviour is fully captured while the external engines stay abstract.
-/

/-- A dynamic Python value, covering the value shapes that flow through the
option-translation code of this repository: None, int, str, bool, lists of
strings, tuples of strings and tuples of ints (the only aggregate shapes the
sources build). -/
inductive PyVal where
  | none
  | int (n : Int)
  | str (s : String)
  | bool (b : Bool)
  | strList (xs : List String)
  | strTuple (xs : List String)
  | intTuple (xs : List Int)
  deriving DecidableEq, Repr

/-- A Python runtime error, as raised by the code paths modelled here. -/
inductive PyErr where
  | attributeError (name : String)
  | nameError (name : String)
  | valueError (msg : String)
  | syntaxError
  | fatalError (msg : String)
  deriving DecidableEq, Repr

/-- Boolean success test for an Except value. -/
def exceptIsOk {ε α : Type} : Except ε α → Bool
  | .ok _ => true
  | .error _ => false

/-- Model of the two-argument os.path.join used throughout the sources
(POSIX semantics). -/
def pathJoin (d f : String) : String :=
  if f.startsWith "/" then f
  else if d = "" then f
  else if d.endsWith "/" then d ++ f
  else d ++ "/" ++ f

/-- Model of os.path.basename (POSIX): the part after the last slash. -/
def pyBasename (p : String) : String :=
  (p.splitOn "/").getLastD ""

/-- Model of os.path.dirname (POSIX): the part before the last slash. -/
def pyDirname (p : String) : String :=
  let parts := p.splitOn "/"
  String.intercalate "/" (parts.take (parts.length - 1))

/-- Root part of os.path.splitext applied to a bare file name: everything
before the last dot, except that a run of leading dots never starts an
extension (so a name like .bashrc keeps its dot). -/
def splitextRoot (s : String) : String :=
  let cs := s.data
  let lead := (cs.takeWhile (fun c => c = '.')).length
  let tl := cs.drop lead
  match tl.reverse.findIdx? (fun c => c = '.') with
  | Option.none => s
  | some k => String.mk (cs.take (lead + (tl.length - 1 - k)))

/-- Accumulate the decimal digits of a character list. -/
def parseNatAux : List Char → Nat → Option Nat
  | [], acc => some acc
  | c :: cs, acc =>
      if c.isDigit then parseNatAux cs (acc * 10 + (c.toNat - 48))
      else Option.none

/-- Model of Python int() applied to an option string: parse an optionally
minus-signed decimal integer, raising ValueError on anything else. -/
def pyInt (s : String) : Except PyErr Int :=
  match s.data with
  | [] => .error (.valueError s)
  | '-' :: [] => .error (.valueError s)
  | '-' :: c :: cs =>
      match parseNatAux (c :: cs) 0 with
      | some n => .ok (-(n : Int))
      | Option.none => .error (.valueError s)
  | cs =>
      match parseNatAux cs 0 with
      | some n => .ok ((n : Int))
      | Option.none => .error (.valueError s)

/-!
A regular-expression engine giving semantics to the re.compile / re.match
combination used by the file filters.  Matching is by Brzozowski derivatives;
Python's re.match anchors the pattern at the start of the string and accepts
when some prefix of the string is in the pattern's language.
-/

/-- Abstract syntax of the regular expressions the filters build:  the
metacharacter '.' becomes any, 'x*' becomes star, and juxtaposition becomes
cat. -/
inductive Regex where
  | emp
  | eps
  | chr (c : Char)
  | any
  | star (r : Regex)
  | cat (r s : Regex)
  | alt (r s : Regex)
  deriving DecidableEq, Repr

/-- Does the regex accept the empty word? -/
def Regex.nullable : Regex → Bool
  | .emp => false
  | .eps => true
  | .chr _ => false
  | .any => false
  | .star _ => true
  | .cat r s => r.nullable && s.nullable
  | .alt r s => r.nullable || s.nullable

/-- Brzozowski derivative of a regex by one character. -/
def Regex.deriv : Regex → Char → Regex
  | .emp, _ => .emp
  | .eps, _ => .emp
  | .chr c, a => if a = c then .eps else .emp
  | .any, _ => .eps
  | .star r, a => .cat (r.deriv a) (.star r)
  | .cat r s, a =>
      if r.nullable then .alt (.cat (r.deriv a) s) (s.deriv a)
      else .cat (r.deriv a) s
  | .alt r s, a => .alt (r.deriv a) (s.deriv a)

/-- Whole-word acceptance of a character list. -/
def Regex.rmatch : Regex → List Char → Bool
  | r, [] => r.nullable
  | r, c :: cs => (r.deriv c).rmatch cs

/-- Acceptance of some prefix of a character list: this is the semantics of
Python's re.match, which anchors the pattern at the start of the string and
does not require it to consume the whole string. -/
def Regex.matchStart : Regex → List Char → Bool
  | r, [] => r.nullable
  | r, c :: cs => r.nullable || (r.deriv c).matchStart cs

/-- Semantics of pattern.match(f) being truthy in the sources. -/
def Regex.pyMatch (r : Regex) (s : String) : Bool :=
  r.matchStart s.data

/-- Regex of the literal filter suffix '.zip': its dot is the any-character
metacharacter of Python regular expressions. -/
def zipPatternRegex : Regex :=
  .cat .any (.cat (.chr 'z') (.cat (.chr 'i') (.chr 'p')))

/-- Regex of the default filter string built from the raw pieces
'.*.' and '.zip', i.e. of '.*..zip'. -/
def defaultFilterRegex : Regex :=
  .cat (.star .any) (.cat .any zipPatternRegex)

/-!
Directory walking.  os.walk yields records (dirpath, dirnames, filenames);
the sources only read rec[0] (dirpath) and rec[-1] (filenames), so a
directory tree is embedded as the list of records the walk produces.
-/

/-- One record produced by os.walk. -/
structure WalkRec where
  dirpath : String
  dirnames : List String
  filenames : List String
  deriving DecidableEq, Repr

namespace PrGeocode

/-!
Model of src/gscpy/pr_geocode/pr_geocode.py (module pr.geocode, the
underscore-named draft).
-/

/-- Geocode.__filter of pr_geocode.py: walk the input directory, skip records
with no file names, keep the names whose compiled pattern matches at the
start (Python filter over pattern.match), then keep those ending in the
stored extension and join them onto the record's directory.  The walk of
self.input_dir is the walk argument; the compiled filter_p regex is filterP.
The dead branch testing the filter result against None is omitted because
Python's filter never returns None. -/
def filterFiles (walk : List WalkRec) (filterP : Regex) (extension : String) :
    List String :=
  match walk with
  | [] => []
  | r :: rest =>
      (if r.filenames.isEmpty then []
       else
         ((r.filenames.filter (fun f => filterP.pyMatch f)).filter
             (fun f => f.endsWith extension)).map (fun f => pathJoin r.dirpath f))
      ++ filterFiles rest filterP extension

/-- The filter_p regex built in Geocode.__init__: the given pattern
concatenated with the extension '.zip' when a pattern is given (Python
truthiness makes the empty pattern fall to the default), and the regex of
'.*.' + '.zip' otherwise. -/
def mkFilterP (pattern : Option Regex) : Regex :=
  match pattern with
  | some p => .cat p zipPatternRegex
  | Option.none => defaultFilterRegex

/-- File discovery of Geocode.__init__: self.extension is '.zip' and
self.files is the result of __filter on the built pattern. -/
def findFiles (walk : List WalkRec) (pattern : Option Regex) : List String :=
  filterFiles walk (mkFilterP pattern) ".zip"

end PrGeocode

namespace PrDotGeocode

/-!
Model of src/gscpy/pr_geocode/pr.geocode.py (module pr.geocode, the
dot-named version).
-/

/-- Geocode.__filter of pr.geocode.py, translated independently from its own
source: the body walks self.dir, skips empty file-name lists, filters by
pattern.match, keeps names with the stored extension and joins them onto the
record's directory. -/
def filterFiles (walk : List WalkRec) (filterP : Regex) (extension : String) :
    List String :=
  match walk with
  | [] => []
  | r :: rest =>
      (if r.filenames.isEmpty then []
       else
         ((r.filenames.filter (fun f => filterP.pyMatch f)).filter
             (fun f => f.endsWith extension)).map (fun f => pathJoin r.dirpath f))
      ++ filterFiles rest filterP extension

end PrDotGeocode

/-- A filesystem side effect performed by the constructors. -/
inductive FsEffect where
  | makedirs (d : String)
  deriving DecidableEq, Repr

/-- One gs.run_command invocation: target module, flag string and keyword
arguments in the order Python passes them. -/
structure GrassCmd where
  module : String
  flags : String
  kwargs : List (String × PyVal)
  deriving DecidableEq, Repr

namespace PrGeocode

/-- The outdir initialisation step of Geocode.__init__ (pr_geocode.py):
when the directory does not exist it is created and nothing is assigned,
the attribute self.outdir being assigned only in the else branch. -/
def initOutdir (pathExists : String → Bool) (outdir : String) :
    Option String × List FsEffect :=
  if !(pathExists outdir) then (Option.none, [FsEffect.makedirs outdir])
  else (some outdir, [])

/-- State of a constructed Geocode object: the detected files, the possibly
missing outdir attribute (see initOutdir) and the parameters stored
verbatim by the self-definitions block of __init__. -/
structure Geocode where
  files : List String
  outdir : Option String
  t_srs : PyVal
  resolution_value : PyVal
  polarizations : PyVal
  shapefile : PyVal
  scaling : PyVal
  geocoding_type : PyVal
  removeS1BoderNoise : Bool
  offset : PyVal
  external_dem_file : PyVal
  external_dem_nan : PyVal
  externalDEMApplyEGM : Bool
  test : Bool
  deriving DecidableEq, Repr

/-- One invocation of the external pyroSAR geocode function, with the
keyword names used at the call site in Geocode.geocode. -/
structure GeocodeCall where
  infile : String
  outdir : String
  t_srs : PyVal
  tr : PyVal
  polarizations : PyVal
  shapefile : PyVal
  scaling : PyVal
  geocoding_type : PyVal
  removeS1BoderNoise : Bool
  offset : PyVal
  externalDEMFile : PyVal
  externalDEMNoDataValue : PyVal
  externalDEMApplyEGM : Bool
  test : Bool
  deriving DecidableEq, Repr

/-- An observable effect of Geocode.geocode: the start and end timestamp
lines depend on the wall clock and are kept abstract; the file line is kept
with its content; the only other effect is the external geocode call. -/
inductive Effect where
  | stdoutWriteStartTime
  | stdoutWrite (s : String)
  | pyroSARGeocode (call : GeocodeCall)
  | stdoutWriteEndTime
  | stdoutFlush
  deriving DecidableEq, Repr

/-- Extract the external call, if the effect is one. -/
def Effect.callOf : Effect → Option GeocodeCall
  | .pyroSARGeocode c => some c
  | _ => Option.none

/-- The argument record built for one file by Geocode.geocode; reading
self.outdir raises AttributeError when the attribute was never assigned. -/
def Geocode.callFor (g : Geocode) (infile : String) :
    Except PyErr GeocodeCall :=
  match g.outdir with
  | Option.none => .error (.attributeError "outdir")
  | some od =>
      .ok { infile := infile, outdir := od, t_srs := g.t_srs,
            tr := g.resolution_value, polarizations := g.polarizations,
            shapefile := g.shapefile, scaling := g.scaling,
            geocoding_type := g.geocoding_type,
            removeS1BoderNoise := g.removeS1BoderNoise, offset := g.offset,
            externalDEMFile := g.external_dem_file,
            externalDEMNoDataValue := g.external_dem_nan,
            externalDEMApplyEGM := g.externalDEMApplyEGM, test := g.test }

/-- The loop body of Geocode.geocode over the remaining files: two stdout
writes, the pyroSAR geocode call with the stored parameters, the end
timestamp write and a flush, per file, in file order. -/
def Geocode.geocodeLoop (g : Geocode) : List String → Except PyErr (List Effect)
  | [] => .ok []
  | infile :: rest => do
      let c ← g.callFor infile
      let tl ← g.geocodeLoop rest
      .ok ([Effect.stdoutWriteStartTime,
            Effect.stdoutWrite ("Start Processing File: <" ++ pyBasename infile ++ ">"),
            Effect.pyroSARGeocode c,
            Effect.stdoutWriteEndTime,
            Effect.stdoutFlush] ++ tl)

/-- Geocode.geocode of pr_geocode.py: iterate the loop over self.files. -/
def Geocode.geocodeRun (g : Geocode) : Except PyErr (List Effect) :=
  g.geocodeLoop g.files

/-- Geocode.import_products of pr_geocode.py: builds the argument dict from
self.outdir (AttributeError when unset) and issues one i.dr.import command;
empty strings replace falsy pattern, mapset, dbase, location and flags. -/
def Geocode.importProductsRun (g : Geocode)
    (pattern mapset dbase location fl : Option String) :
    Except PyErr GrassCmd :=
  match g.outdir with
  | Option.none => .error (.attributeError "outdir")
  | some od =>
      .ok { module := "i.dr.import", flags := fl.getD "",
            kwargs := [("input_dir", PyVal.str od),
                       ("input", PyVal.str od),
                       ("extension", PyVal.str "GEOTIFF"),
                       ("pattern", PyVal.str (pattern.getD "")),
                       ("mapset", PyVal.str (mapset.getD "")),
                       ("dbase", PyVal.str (dbase.getD "")),
                       ("location", PyVal.str (location.getD ""))] }

end PrGeocode

namespace PrDotGeocode

/-- The outdir initialisation step of Geocode.__init__ (pr.geocode.py),
textually the same as in pr_geocode.py: a missing directory is created but
self.outdir is assigned only when the directory already existed. -/
def initOutdir (pathExists : String → Bool) (outdir : String) :
    Option String × List FsEffect :=
  if !(pathExists outdir) then (Option.none, [FsEffect.makedirs outdir])
  else (some outdir, [])

/-- CPython identity test between a parser-produced option string and a
string literal, as used by the chains of is-comparisons in main of
pr.geocode.py: the empty string is a canonical interned singleton, so
comparing with the literal empty string behaves like equality; any other
literal is a distinct object from a string parsed out of the command line,
so the test is false regardless of the characters. -/
def pyIsLit (v : String) (lit : String) : Bool :=
  lit = "" && v = ""

/-- Option strings read from the parsed options dict at the top of main
(pr.geocode.py); gs.parser yields every value as a string. -/
structure MainOptions where
  dir : String
  outdir : String
  shapefile : String
  t_srs : String
  resolution_value : String
  scaling : String
  geocoding_type : String
  polarizations : String
  offset : String
  external_dem_file : String
  external_dem_nan : String
  pattern : String
  deriving DecidableEq, Repr

/-- The keyword arguments main passes to the Geocode constructor. -/
structure GeocodeCtorArgs where
  dir : String
  outdir : String
  pattern : Option String
  t_srs : PyVal
  resolution_value : PyVal
  polarizations : PyVal
  shapefile : PyVal
  scaling : PyVal
  geocoding_type : PyVal
  removeS1BoderNoise : Bool
  offset : PyVal
  external_dem_file : PyVal
  external_dem_nan : PyVal
  externalDEMApplyEGM : Bool
  test : Bool
  deriving DecidableEq, Repr

/-- The option-translation block of main in pr.geocode.py (the chain of
is-comparisons down to the Geocode constructor call), with the b, e and t
flags passed through.  Each branch mirrors the source line for line; the
identity comparisons use pyIsLit. -/
def mainTranslate (o : MainOptions) (flagB flagE flagT : Bool) :
    Except PyErr GeocodeCtorArgs := do
  let pattern := if o.pattern = "" then Option.none else some o.pattern
  let shapefile := if pyIsLit o.shapefile "" then PyVal.none
                   else PyVal.str o.shapefile
  let outdir := if pyIsLit o.outdir "" then pathJoin (pyDirname o.dir) "results"
                else o.outdir
  let t_srs ← if pyIsLit o.t_srs "" then pure (PyVal.int 4326)
              else do pure (PyVal.int (← pyInt o.t_srs))
  let resolution_value := if pyIsLit o.resolution_value "" then PyVal.int 20
                          else PyVal.str o.resolution_value
  let geocoding_type := if pyIsLit o.geocoding_type "Cross-Correlation" then
                          PyVal.str "SAR simulation cross correlation"
                        else PyVal.str o.geocoding_type
  let polarizations := if pyIsLit o.polarizations "all" then
                         PyVal.str o.polarizations
                       else if pyIsLit o.polarizations "" then PyVal.str "all"
                       else PyVal.strList [o.polarizations]
  let offset ← if pyIsLit o.offset "" then pure PyVal.none
               else do
                 let offset_list := o.offset.splitOn ","
                 let nums ← offset_list.mapM pyInt
                 pure (PyVal.intTuple nums)
  let external_dem_file := if pyIsLit o.external_dem_file "" then PyVal.none
                           else PyVal.str o.external_dem_file
  let external_dem_nan ← if pyIsLit o.external_dem_nan "" then pure PyVal.none
                         else do pure (PyVal.int (← pyInt o.external_dem_nan))
  .ok { dir := o.dir, outdir := outdir, pattern := pattern, t_srs := t_srs,
        resolution_value := resolution_value, polarizations := polarizations,
        shapefile := shapefile, scaling := PyVal.str o.scaling,
        geocoding_type := geocoding_type, removeS1BoderNoise := flagB,
        offset := offset, external_dem_file := external_dem_file,
        external_dem_nan := external_dem_nan, externalDEMApplyEGM := flagE,
        test := flagT }

end PrDotGeocode

namespace Ds1Download

/-!
Model of src/gscpy/ds1_download/ds1_download.py (module d.s1.download).
-/

/-- The outdir initialisation step of S1Download.__init__, the same slip as
in the geocode wrappers: a fresh directory is created but self.outdir is
assigned only when the directory already existed. -/
def initOutdir (pathExists : String → Bool) (outdir : String) :
    Option String × List FsEffect :=
  if !(pathExists outdir) then (Option.none, [FsEffect.makedirs outdir])
  else (some outdir, [])

/-- The one effect of S1Download.download. -/
inductive DownloadEffect where
  | downloadAll (products : List String) (directoryPath : String)
  deriving DecidableEq, Repr

/-- S1Download.download: reads self.products and self.outdir and hands both
to the sentinelsat API; reading a never-assigned outdir attribute raises
AttributeError. -/
def downloadRun (outdirAttr : Option String) (products : List String) :
    Except PyErr DownloadEffect :=
  match outdirAttr with
  | Option.none => .error (.attributeError "outdir")
  | some od => .ok (.downloadAll products od)

/-- The per-value step of change_dict_value. -/
def changeVal (oldValue newValue v : PyVal) : PyVal :=
  if v = oldValue then newValue else v

/-- change_dict_value of ds1_download.py: replace every value equal to
old_value by new_value, keeping the dict's keys and their order. -/
def change_dict_value (d : List (String × PyVal)) (oldValue newValue : PyVal) :
    List (String × PyVal) :=
  d.map (fun kv => (kv.1, changeVal oldValue newValue kv.2))

/-- The per-value step of tuple_multi_string: split the string at the
separator and take the tuple of parts unless the split has at most one
part. -/
def tupleVal (s : String) : PyVal :=
  let value_split := s.splitOn ","
  if value_split.length = 1 || value_split.length = 0 then PyVal.str s
  else PyVal.strTuple value_split

/-- tuple_multi_string of ds1_download.py: apply the split-to-tuple step to
every value of the dict; it runs on the freshly parsed dict, whose values
are all strings. -/
def tuple_multi_string (d : List (String × String)) : List (String × PyVal) :=
  d.map (fun kv => (kv.1, tupleVal kv.2))

/-- The option preprocessing in the __main__ block of ds1_download.py:
tuple_multi_string, then three change_dict_value passes mapping the empty
string, ALL and All to None. -/
def mainOptionsPipeline (opts : List (String × String)) :
    List (String × PyVal) :=
  change_dict_value
    (change_dict_value
      (change_dict_value (tuple_multi_string opts) (PyVal.str "") PyVal.none)
      (PyVal.str "ALL") PyVal.none)
    (PyVal.str "All") PyVal.none

/-- Statement of the claim's description of the preprocessing, written for
comparison with the pipeline: comma-separated values become tuples, and a
value equal to the empty string, ALL or All becomes None. -/
def normalizeOptionValue (s : String) : PyVal :=
  let parts := s.splitOn ","
  if parts.length = 1 || parts.length = 0 then
    (if s = "" || s = "ALL" || s = "All" then PyVal.none else PyVal.str s)
  else PyVal.strTuple parts

/-- The date reformatting of S1Download.__init__: split the time string at
the dashes and concatenate the pieces. -/
def reformatTime (t : String) : String :=
  String.join (t.splitOn "-")

/-- The kwargs dict built by S1Download.__init__: of the five optional
parameters, exactly those that are not None, keyed in declaration order. -/
def s1QueryKwargs (producttype polarisationmode sensoroperationalmode
    orbitnumber orbitdirection : PyVal) : List (String × PyVal) :=
  let input_parameter := [producttype, polarisationmode,
                          sensoroperationalmode, orbitnumber, orbitdirection]
  let keys := ["producttype", "polarisationmode", "sensoroperationalmode",
               "orbitnumber", "orbitdirection"]
  (keys.zip input_parameter).filter (fun kv => decide (kv.2 ≠ PyVal.none))

/-- The constructor arguments of S1Download relevant to the query. -/
structure S1DownloadArgs where
  region : String
  timestart : String
  timeend : String
  producttype : PyVal
  polarisationmode : PyVal
  sensoroperationalmode : PyVal
  orbitnumber : PyVal
  orbitdirection : PyVal
  deriving DecidableEq, Repr

/-- The single api.query call issued by S1Download.__init__. -/
structure QueryCall where
  area : String
  date : String × String
  platformname : String
  kwargs : List (String × PyVal)
  deriving DecidableEq, Repr

/-- The query S1Download.__init__ sends to the Copernicus hub, with the
geojson-to-WKT conversion of the region kept abstract as an oracle. -/
def queryOf (geojsonToWkt : String → String) (a : S1DownloadArgs) : QueryCall :=
  { area := geojsonToWkt a.region,
    date := (reformatTime a.timestart, reformatTime a.timeend),
    platformname := "Sentinel-1",
    kwargs := s1QueryKwargs a.producttype a.polarisationmode
      a.sensoroperationalmode a.orbitnumber a.orbitdirection }

end Ds1Download

namespace TCRegister

/-!
Model of src/gscpy/t_c_register/t_c_register.py (module t.c.register).
-/

/-- The constructor parameters of CRegister that flow into the two kwarg
dicts used by cregister; endTime models the parameter named end. -/
structure CRegisterArgs where
  output : Option String
  title : Option String
  description : Option String
  start : Option String
  type : Option String
  semantictype : Option String
  endTime : Option String
  temporaltype : Option String
  separator : Option String
  pattern : Option String
  exclude : Option String
  mapset : Option String
  region : Option String
  unit : Option String
  increment : Option String
  deriving DecidableEq, Repr

/-- The enumerate-and-skip-None loop that builds each kwargs dict. -/
def optPairs (keys : List String) (vals : List (Option String)) :
    List (String × PyVal) :=
  (keys.zip vals).filterMap (fun kv => kv.2.map (fun v => (kv.1, PyVal.str v)))

/-- self.ckwargs of CRegister.__init__: the non-None creation parameters,
then the assignment of 'strds' under the fresh key type. -/
def ckwargsOf (a : CRegisterArgs) : List (String × PyVal) :=
  optPairs ["output", "temporaltype", "title", "description"]
      [a.output, a.temporaltype, a.title, a.description]
    ++ [("type", PyVal.str "strds")]

/-- self.rkwargs of CRegister.__init__: the non-None registration
parameters (self.input is output), then the maps entry holding whatever
the g.list helper returned. -/
def rkwargsOf (a : CRegisterArgs) (maps : PyVal) : List (String × PyVal) :=
  optPairs ["input", "type", "start", "unit", "increment"]
      [a.output, a.type, a.start, a.unit, a.increment]
    ++ [("maps", maps)]

/-- The state of a constructed CRegister that cregister reads. -/
structure CRegister where
  ckwargs : List (String × PyVal)
  rkwargs : List (String × PyVal)
  deriving DecidableEq, Repr

/-- CRegister.__init__ restricted to the fields cregister reads. -/
def CRegister.ofArgs (a : CRegisterArgs) (maps : PyVal) : CRegister :=
  { ckwargs := ckwargsOf a, rkwargs := rkwargsOf a maps }

/-- CRegister.__t_create: one t.create command with the stored ckwargs. -/
def CRegister.tCreateRun (c : CRegister) : List GrassCmd :=
  [{ module := "t.create", flags := "", kwargs := c.ckwargs }]

/-- CRegister.__t_register: one t.register command with the stored rkwargs,
carrying flag i exactly when t is true. -/
def CRegister.tRegisterRun (c : CRegister) (t : Bool) : List GrassCmd :=
  [{ module := "t.register", flags := if t then "i" else "",
     kwargs := c.rkwargs }]

/-- CRegister.cregister: the creation command sequence followed by the
registration command sequence. -/
def CRegister.cregister (c : CRegister) (t : Bool) : List GrassCmd :=
  c.tCreateRun ++ c.tRegisterRun t

end TCRegister

namespace IFImport

/-!
Model of src/gscpy/i_import/i.f.import.py, whose module header declares it
as i.s1.import.
-/

/-- An observable step of Finder.import_products; gs.fatal aborts the run,
so it is the last step of a trace it appears in. -/
inductive Step where
  | message (s : String)
  | runCmd (c : GrassCmd)
  | rasterHistory (mapname : String)
  | fatalStop (msg : String)
  deriving DecidableEq, Repr

/-- Finder.__import_file: derive the map name from the file name, emit the
processing message, add the resolution_value argument when reprojection is
in use, then issue the import command and record raster history. -/
def importFile (resOf : String → Int) (module : String)
    (args : List (String × PyVal)) (filename : String) : List Step :=
  let mapname := splitextRoot (pyBasename filename)
  let args := if module = "r.import" then
                args ++ [("resolution_value", PyVal.int (resOf filename))]
              else args
  [Step.message mapname,
   Step.runCmd { module := module, flags := "",
                 kwargs := [("input", PyVal.str filename),
                            ("output", PyVal.str mapname)] ++ args },
   Step.rasterHistory mapname]

/-- The loop of Finder.import_products over the detected files: the
projection check runs under the condition written in the source and a
failure is fatal; a file that exists on disk falls into the pass branch and
is skipped; only the remaining files are imported. -/
def importLoop (checkProj pathExists : String → Bool) (resOf : String → Int)
    (link reproject : Bool) (module : String) (args : List (String × PyVal)) :
    List String → List Step
  | [] => []
  | f :: rest =>
      if (link || (!link && !reproject)) && !(checkProj f) then
        [Step.fatalStop "Projection of dataset does not appear to match current location."]
      else if pathExists f then
        importLoop checkProj pathExists resOf link reproject module args rest
      else
        importFile resOf module args f
          ++ importLoop checkProj pathExists resOf link reproject module args rest

/-- Finder.import_products: when link is true only the module name is
computed and the loop never runs; otherwise the module and base arguments
follow the reproject switch and the loop processes self.files. -/
def importProductsRun (checkProj pathExists : String → Bool)
    (resOf : String → Int) (files : List String) (reproject link : Bool) :
    List Step :=
  if link then []
  else
    let module := if reproject then "r.import" else "r.in.gdal"
    let args : List (String × PyVal) :=
      if reproject then [("resample", PyVal.str "bilinear"),
                         ("resolution", PyVal.str "value")]
      else []
    importLoop checkProj pathExists resOf link reproject module args files

/-- The files an import command was issued for, in trace order. -/
def importedInputs (steps : List Step) : List String :=
  steps.filterMap (fun st =>
    match st with
    | Step.runCmd c =>
        match c.kwargs.lookup "input" with
        | some (PyVal.str f) => some f
        | _ => Option.none
    | _ => Option.none)

end IFImport

namespace GDatabase

/-!
Model of src/gscpy/g_db/g_database.py (module g.database).
-/

/-- The attributes Database.__init__ assigns. -/
structure Database where
  t_srs : Option Int
  t_srs_file : Option String
  db_name : String
  dir : String
  launch : Bool
  deriving DecidableEq, Repr

/-- Database.__init__: the georeference check raises ValueError when neither
or both of t_srs and t_srs_file are given, or when the given t_srs_file
does not exist; otherwise the attributes are stored, t_srs through int()
(the t_srs option is declared an integer, so the value is an Int here). -/
def Database.init (pathExists : String → Bool) (db_dir db_name : String)
    (t_srs : Option Int) (t_srs_file : Option String) (launch : Bool) :
    Except PyErr Database :=
  if t_srs = Option.none ∧ t_srs_file = Option.none then
    .error (.valueError "A EPSG code (t_srs) or a geocoded file (t_srs_file) must be defined.")
  else if t_srs ≠ Option.none ∧ t_srs_file ≠ Option.none then
    .error (.valueError "Parameter t_srs AND A t_srs_file are defined.")
  else
    match t_srs_file with
    | some f =>
        if !(pathExists f) then .error (.valueError "File does not exist")
        else .ok { t_srs := t_srs, t_srs_file := some f, db_name := db_name,
                   dir := pathJoin db_dir db_name, launch := launch }
    | Option.none =>
        .ok { t_srs := t_srs, t_srs_file := Option.none, db_name := db_name,
              dir := pathJoin db_dir db_name, launch := launch }

end GDatabase

namespace PySyntax

/-!
A small model of the Python 3 surface syntax and name resolution, enough to
decide whether the statements named by the spec are runnable: a tokenizer,
a parser for the statement fragment import NAME and for expression
statements built from names and call parentheses, and the global namespace
of pr.geocode.py.
-/

/-- Characters that may appear in an identifier token. -/
def tokenChar (c : Char) : Bool := c.isAlphanum || c = '_'

/-- Tokenizer for the statement fragment: identifier runs, single
punctuation characters, whitespace separating. -/
def tokenizeAux : List Char → List Char → List String
  | [], acc => if acc.isEmpty then [] else [String.mk acc.reverse]
  | c :: cs, acc =>
      if tokenChar c then tokenizeAux cs (c :: acc)
      else
        let pre := if acc.isEmpty then [] else [String.mk acc.reverse]
        if c = ' ' then pre ++ tokenizeAux cs []
        else pre ++ [String.mk [c]] ++ tokenizeAux cs []

/-- Tokenize a source line. -/
def tokenize (s : String) : List String := tokenizeAux s.data []

/-- Python keywords, which are not usable as identifier tokens; print is a
plain name in Python 3. -/
def pyKeywords : List String :=
  ["import", "from", "as", "if", "else", "elif", "for", "while", "def",
   "class", "return", "pass", "raise", "try", "except", "in", "is", "not",
   "and", "or", "None", "True", "False"]

/-- Is the token a well-formed identifier? -/
def isIdentTok (s : String) : Bool :=
  !s.isEmpty && s.data.all tokenChar && !(s.data.headD '0').isDigit
    && !(pyKeywords.contains s)

/-- Expressions of the fragment: names and calls with zero or one name
argument. -/
inductive Expr where
  | name (s : String)
  | call0 (f : Expr)
  | call1 (f : Expr) (arg : Expr)
  deriving DecidableEq, Repr

/-- Statements of the fragment. -/
inductive Stmt where
  | importStmt (module : String)
  | exprStmt (e : Expr)
  deriving DecidableEq, Repr

/-- Parse call-parenthesis trailers after an atom; any leftover token that
does not open a trailer stays unconsumed, and an expression statement is
valid only when nothing is left (two adjacent names are not a Python 3
statement). -/
def parseTrailers (f : Expr) : List String → Option (Expr × List String)
  | "(" :: ")" :: rest => parseTrailers (.call0 f) rest
  | "(" :: a :: ")" :: rest =>
      if isIdentTok a then parseTrailers (.call1 f (.name a)) rest
      else some (f, "(" :: a :: ")" :: rest)
  | toks => some (f, toks)

/-- Parse an expression statement: a name atom followed by trailers, with
every token consumed. -/
def parseExprStmt (toks : List String) : Option Expr :=
  match toks with
  | t :: rest =>
      if isIdentTok t then
        match parseTrailers (.name t) rest with
        | some (e, []) => some e
        | _ => Option.none
      else Option.none
  | [] => Option.none

/-- Parse one statement of the fragment: the import keyword demands a
module name after it, and anything else must be a complete expression
statement. -/
def parseStmt (toks : List String) : Option Stmt :=
  match toks with
  | "import" :: rest =>
      match rest with
      | [m] => if isIdentTok m then some (.importStmt m) else Option.none
      | _ => Option.none
  | _ => (parseExprStmt toks).map .exprStmt

/-- Line 4 of src/gscpy/sentinel_download/s1_download.py: a bare import
statement with no module name. -/
def s1DownloadHeaderLine : String := "import"

/-- The body line of main in src/gscpy/d_s1_download/ds1.download.py:
print applied without parentheses. -/
def ds1DownloadMainPrintLine : String := "print options"

/-- The names bound at module level in pr.geocode.py when
Geocode.__init__ runs: the imports, the class, main, and the two names the
__main__ block assigns. -/
def prGeocodeModuleNames : List String :=
  ["dt", "os", "re", "sys", "geocode", "gs", "CalledModuleError",
   "Geocode", "main", "options", "flags"]

/-- Python builtin names referenced by the modelled code; the translation
helper underscore name is not among Python's builtins and pr.geocode.py
neither defines nor imports it. -/
def pyBuiltins : List String :=
  ["print", "int", "str", "list", "tuple", "len", "open", "filter", "map",
   "enumerate", "range", "ValueError", "ImportError", "format", "object",
   "True", "False", "None"]

/-- Name resolution in pr.geocode.py: module globals, then builtins;
anything else raises NameError at call time. -/
def resolveName (n : String) : Except PyErr Unit :=
  if prGeocodeModuleNames.contains n || pyBuiltins.contains n then .ok ()
  else .error (.nameError n)

end PySyntax

/-!
Theorems.
-/

/-- matchStart accepts exactly when the regex fully matches some prefix,
i.e. the pattern is anchored at the start of the name. -/
theorem matchStart_iff_prefix (r : Regex) (cs : List Char) :
    r.matchStart cs = true ↔ ∃ p q, cs = p ++ q ∧ r.rmatch p = true := by
  induction cs generalizing r with
  | nil =>
      simp only [Regex.matchStart]
      constructor
      · intro h
        exact ⟨[], [], rfl, h⟩
      · rintro ⟨p, q, hpq, hm⟩
        have hp : p = [] := by
          cases p with
          | nil => rfl
          | cons a as => simp at hpq
        subst hp
        exact hm
  | cons c cs ih =>
      simp only [Regex.matchStart, Bool.or_eq_true]
      constructor
      · intro h
        rcases h with h | h
        · exact ⟨[], c :: cs, rfl, h⟩
        · rcases (ih (r.deriv c)).1 h with ⟨p, q, hpq, hm⟩
          exact ⟨c :: p, q, by simp [hpq], hm⟩
      · rintro ⟨p, q, hpq, hm⟩
        cases p with
        | nil =>
            left
            simpa [Regex.rmatch] using hm
        | cons a as =>
            right
            rw [List.cons_append] at hpq
            injection hpq with h1 h2
            subst h1
            exact (ih (r.deriv c)).2 ⟨as, q, h2, by simpa [Regex.rmatch] using hm⟩

/-- C2: the geocoding wrapper's file discovery returns exactly those files
under the input directory whose base name matches the pattern concatenated
with '.zip' (default regex '.*..zip' when no pattern is given) anchored at
the start of the name, and ends with '.zip'; each returned path joins the
containing directory with the file name.  The second conjunct states that
the matcher used is the anchored-prefix semantics of re.match. -/
theorem geocode_filter_characterization
    (walk : List WalkRec) (pattern : Option Regex) :
    (PrGeocode.findFiles walk pattern =
      walk.flatMap (fun r =>
        (r.filenames.filter (fun f =>
            (PrGeocode.mkFilterP pattern).pyMatch f && f.endsWith ".zip")).map
          (fun f => pathJoin r.dirpath f))) ∧
    (PrGeocode.mkFilterP pattern =
      match pattern with
      | some p => .cat p zipPatternRegex
      | Option.none => defaultFilterRegex) ∧
    (∀ (rg : Regex) (s : String),
      rg.pyMatch s = true ↔ ∃ p q, s.data = p ++ q ∧ rg.rmatch p = true) := by
  refine ⟨?_, rfl, ?_⟩
  · induction walk with
    | nil => rfl
    | cons r rest ih =>
        simp only [PrGeocode.findFiles, PrGeocode.filterFiles, List.flatMap_cons]
        rw [PrGeocode.findFiles] at ih
        rw [ih]
        congr 1
        cases hfn : r.filenames with
        | nil => simp
        | cons a l =>
            rw [List.filter_filter]
            simp [Bool.and_comm]
  · intro rg s
    exact matchStart_iff_prefix rg s.data

/-- C4: the two divergent versions of the geocode wrapper implement the same
file discovery: on every walked directory tree, compiled filter pattern and
extension, Geocode.__filter of pr.geocode.py and Geocode.__filter of
pr_geocode.py return the same list of paths in the same order. -/
theorem geocode_filter_versions_agree
    (walk : List WalkRec) (filterP : Regex) (extension : String) :
    PrDotGeocode.filterFiles walk filterP extension =
      PrGeocode.filterFiles walk filterP extension := by
  induction walk with
  | nil => rfl
  | cons r rest ih =>
      simp only [PrDotGeocode.filterFiles, PrGeocode.filterFiles]
      rw [ih]

theorem geocodeLoop_calls (g : PrGeocode.Geocode) (od : String)
    (h : g.outdir = some od) (fs : List String) :
    ∃ effs, g.geocodeLoop fs = .ok effs ∧
      effs.filterMap PrGeocode.Effect.callOf = fs.map (fun infile =>
        { infile := infile, outdir := od, t_srs := g.t_srs,
          tr := g.resolution_value, polarizations := g.polarizations,
          shapefile := g.shapefile, scaling := g.scaling,
          geocoding_type := g.geocoding_type,
          removeS1BoderNoise := g.removeS1BoderNoise, offset := g.offset,
          externalDEMFile := g.external_dem_file,
          externalDEMNoDataValue := g.external_dem_nan,
          externalDEMApplyEGM := g.externalDEMApplyEGM, test := g.test }) := by
  induction fs with
  | nil => exact ⟨[], rfl, rfl⟩
  | cons f rest ih =>
      rcases ih with ⟨effs, he, hc⟩
      refine ⟨[PrGeocode.Effect.stdoutWriteStartTime,
               PrGeocode.Effect.stdoutWrite
                 ("Start Processing File: <" ++ pyBasename f ++ ">"),
               PrGeocode.Effect.pyroSARGeocode
                 { infile := f, outdir := od, t_srs := g.t_srs,
                   tr := g.resolution_value,
                   polarizations := g.polarizations,
                   shapefile := g.shapefile, scaling := g.scaling,
                   geocoding_type := g.geocoding_type,
                   removeS1BoderNoise := g.removeS1BoderNoise,
                   offset := g.offset,
                   externalDEMFile := g.external_dem_file,
                   externalDEMNoDataValue := g.external_dem_nan,
                   externalDEMApplyEGM := g.externalDEMApplyEGM,
                   test := g.test },
               PrGeocode.Effect.stdoutWriteEndTime,
               PrGeocode.Effect.stdoutFlush] ++ effs, ?_, ?_⟩
      · simp [PrGeocode.Geocode.geocodeLoop, PrGeocode.Geocode.callFor, h, he,
          Bind.bind, Except.bind]
      · simp [List.filterMap_cons, List.filterMap_append,
          PrGeocode.Effect.callOf, hc]

/-- C1: for every constructed Geocode object whose outdir attribute was
assigned, Geocode.geocode invokes the external pyroSAR geocode function
exactly once per detected file, in the order of self.files, forwarding the
stored parameters unchanged under the call-site keyword names; the trace
contains no effects other than stdout writes and these external calls, so
the method performs no raster computation of its own. -/
theorem geocode_passthrough_calls (g : PrGeocode.Geocode) (od : String)
    (h : g.outdir = some od) :
    ∃ effs, g.geocodeRun = .ok effs ∧
      effs.filterMap PrGeocode.Effect.callOf = g.files.map (fun infile =>
        { infile := infile, outdir := od, t_srs := g.t_srs,
          tr := g.resolution_value, polarizations := g.polarizations,
          shapefile := g.shapefile, scaling := g.scaling,
          geocoding_type := g.geocoding_type,
          removeS1BoderNoise := g.removeS1BoderNoise, offset := g.offset,
          externalDEMFile := g.external_dem_file,
          externalDEMNoDataValue := g.external_dem_nan,
          externalDEMApplyEGM := g.externalDEMApplyEGM, test := g.test }) :=
  geocodeLoop_calls g od h g.files

/-- Witness for C1 at a concrete Geocode state. -/
theorem geocode_passthrough_calls_witness :
    ∃ effs, PrGeocode.Geocode.geocodeRun
        { files := ["/d/a.zip", "/d/b.zip"], outdir := some "/out",
          t_srs := PyVal.int 4326, resolution_value := PyVal.int 20,
          polarizations := PyVal.str "all", shapefile := PyVal.none,
          scaling := PyVal.str "dB",
          geocoding_type := PyVal.str "Range-Doppler",
          removeS1BoderNoise := true, offset := PyVal.none,
          external_dem_file := PyVal.none, external_dem_nan := PyVal.none,
          externalDEMApplyEGM := true, test := false } = .ok effs ∧
      effs.filterMap PrGeocode.Effect.callOf =
        ["/d/a.zip", "/d/b.zip"].map (fun infile =>
          { infile := infile, outdir := "/out", t_srs := PyVal.int 4326,
            tr := PyVal.int 20, polarizations := PyVal.str "all",
            shapefile := PyVal.none, scaling := PyVal.str "dB",
            geocoding_type := PyVal.str "Range-Doppler",
            removeS1BoderNoise := true, offset := PyVal.none,
            externalDEMFile := PyVal.none,
            externalDEMNoDataValue := PyVal.none,
            externalDEMApplyEGM := true, test := false }) :=
  geocode_passthrough_calls _ "/out" rfl

/-- C9: when the output directory handed to Geocode.__init__ (either
version) or S1Download.__init__ does not exist, the constructor issues
makedirs but never assigns the outdir attribute; the attribute is assigned
exactly when the directory already existed; and on an object whose outdir
attribute is missing, import_products fails at once, geocode fails as soon
as a file is processed, and download fails. -/
theorem outdir_attribute_never_assigned (pathExists : String → Bool)
    (od : String) (h : pathExists od = false) :
    PrGeocode.initOutdir pathExists od =
      (Option.none, [FsEffect.makedirs od]) ∧
    PrDotGeocode.initOutdir pathExists od =
      (Option.none, [FsEffect.makedirs od]) ∧
    Ds1Download.initOutdir pathExists od =
      (Option.none, [FsEffect.makedirs od]) ∧
    (∀ (pe : String → Bool) (d : String), pe d = true →
      PrGeocode.initOutdir pe d = (some d, []) ∧
      PrDotGeocode.initOutdir pe d = (some d, []) ∧
      Ds1Download.initOutdir pe d = (some d, [])) ∧
    (∀ g : PrGeocode.Geocode, g.outdir = Option.none →
      ∀ pattern mapset dbase location fl,
        g.importProductsRun pattern mapset dbase location fl =
          .error (.attributeError "outdir")) ∧
    (∀ g : PrGeocode.Geocode, g.outdir = Option.none → g.files ≠ [] →
      g.geocodeRun = .error (.attributeError "outdir")) ∧
    (∀ products, Ds1Download.downloadRun Option.none products =
      .error (.attributeError "outdir")) := by
  refine ⟨?_, ?_, ?_, ?_, ?_, ?_, ?_⟩
  · simp [PrGeocode.initOutdir, h]
  · simp [PrDotGeocode.initOutdir, h]
  · simp [Ds1Download.initOutdir, h]
  · intro pe d hd
    refine ⟨?_, ?_, ?_⟩ <;>
      simp [PrGeocode.initOutdir, PrDotGeocode.initOutdir,
        Ds1Download.initOutdir, hd]
  · intro g hg pattern mapset dbase location fl
    simp [PrGeocode.Geocode.importProductsRun, hg]
  · intro g hg hfiles
    rcases hfs : g.files with _ | ⟨f, rest⟩
    · exact absurd hfs hfiles
    · simp [PrGeocode.Geocode.geocodeRun, hfs, PrGeocode.Geocode.geocodeLoop,
        PrGeocode.Geocode.callFor, hg, Bind.bind, Except.bind]
  · intro products
    simp [Ds1Download.downloadRun]

/-- Witness for C9 at a concrete missing directory and a concrete object. -/
theorem outdir_attribute_never_assigned_witness :
    PrGeocode.initOutdir (fun _ => false) "/data/results" =
      (Option.none, [FsEffect.makedirs "/data/results"]) ∧
    Ds1Download.downloadRun Option.none ["product0"] =
      .error (.attributeError "outdir") :=
  ⟨(outdir_attribute_never_assigned (fun _ => false) "/data/results" rfl).1,
   (outdir_attribute_never_assigned (fun _ => false) "/data/results"
      rfl).2.2.2.2.2.2 ["product0"]⟩

theorem lookup_append_single (l : List (String × PyVal)) (k : String)
    (v : PyVal) (h : ∀ p ∈ l, p.1 ≠ k) :
    (l ++ [(k, v)]).lookup k = some v := by
  induction l with
  | nil => simp [List.lookup]
  | cons p rest ih =>
      have hp : p.1 ≠ k := h p (by simp)
      have : (k == p.1) = false := by
        simp [beq_iff_eq]
        exact fun he => hp he.symm
      simp only [List.cons_append, List.lookup, this]
      exact ih (fun q hq => h q (by simp [hq]))

theorem optPairs_keys (keys : List String) (vals : List (Option String)) :
    ∀ p ∈ TCRegister.optPairs keys vals, p.1 ∈ keys := by
  intro p hp
  simp only [TCRegister.optPairs, List.mem_filterMap] at hp
  rcases hp with ⟨⟨k, ov⟩, hmem, heq⟩
  cases ov with
  | none => simp at heq
  | some v =>
      simp only [Option.map_some] at heq
      cases heq
      exact (List.of_mem_zip hmem).1

/-- C7: cregister issues the t.create command first, with the stored
creation kwargs in which the key type is bound to strds, and only
afterwards the t.register command with the stored registration kwargs and
flag i exactly when its argument t is true; the full command trace pins the
order, and the module projection shows the registration command never
precedes the creation command. -/
theorem cregister_creates_then_registers (a : TCRegister.CRegisterArgs)
    (maps : PyVal) (t : Bool) :
    (TCRegister.CRegister.ofArgs a maps).cregister t =
      [{ module := "t.create", flags := "",
         kwargs := TCRegister.ckwargsOf a },
       { module := "t.register", flags := if t then "i" else "",
         kwargs := TCRegister.rkwargsOf a maps }] ∧
    ((TCRegister.CRegister.ofArgs a maps).cregister t).map GrassCmd.module =
      ["t.create", "t.register"] ∧
    (TCRegister.ckwargsOf a).lookup "type" = some (PyVal.str "strds") := by
  refine ⟨rfl, rfl, ?_⟩
  apply lookup_append_single
  intro p hp
  have hk := optPairs_keys _ _ p hp
  intro he
  rw [he] at hk
  simp at hk

/-- C6: the ds1.download entry point first converts comma-separated option
values to tuples and replaces every value equal to the empty string, ALL or
All by None; S1Download.__init__ then passes to the hub query exactly the
non-None members of the five optional parameters as keyword arguments,
together with the region geometry, the reformatted date pair and
platformname Sentinel-1, omitting the None parameters. -/
theorem ds1_download_query_construction :
    (∀ opts : List (String × String),
      Ds1Download.mainOptionsPipeline opts =
        opts.map (fun kv => (kv.1, Ds1Download.normalizeOptionValue kv.2))) ∧
    (∀ (geojsonToWkt : String → String) (a : Ds1Download.S1DownloadArgs),
      Ds1Download.queryOf geojsonToWkt a =
        { area := geojsonToWkt a.region,
          date := (Ds1Download.reformatTime a.timestart,
                   Ds1Download.reformatTime a.timeend),
          platformname := "Sentinel-1",
          kwargs := [("producttype", a.producttype),
                     ("polarisationmode", a.polarisationmode),
                     ("sensoroperationalmode", a.sensoroperationalmode),
                     ("orbitnumber", a.orbitnumber),
                     ("orbitdirection", a.orbitdirection)].filter
                      (fun kv => decide (kv.2 ≠ PyVal.none)) }) := by
  constructor
  · intro opts
    simp only [Ds1Download.mainOptionsPipeline, Ds1Download.change_dict_value,
      Ds1Download.tuple_multi_string, List.map_map]
    apply List.map_congr_left
    intro kv _
    simp only [Function.comp]
    congr 1
    rw [Ds1Download.tupleVal, Ds1Download.normalizeOptionValue]
    by_cases hlen : (kv.2.splitOn ",").length = 1 ∨
        (kv.2.splitOn ",").length = 0
    · rw [if_pos (by simpa using hlen), if_pos (by simpa using hlen)]
      by_cases h1 : kv.2 = ""
      · simp [Ds1Download.changeVal, h1]
      · by_cases h2 : kv.2 = "ALL"
        · simp [Ds1Download.changeVal, h1, h2]
        · by_cases h3 : kv.2 = "All"
          · simp [Ds1Download.changeVal, h1, h2, h3]
          · simp [Ds1Download.changeVal, h1, h2, h3]
    · rw [if_neg (by simpa using hlen), if_neg (by simpa using hlen)]
      simp [Ds1Download.changeVal]
  · intro geojsonToWkt a
    rfl

theorem importedInputs_importFile_append (resOf : String → Int)
    (module : String) (args : List (String × PyVal)) (f : String)
    (rest : List IFImport.Step) :
    IFImport.importedInputs (IFImport.importFile resOf module args f ++ rest) =
      f :: IFImport.importedInputs rest := by
  simp [IFImport.importFile, IFImport.importedInputs, List.lookup]

theorem importLoop_imports_missing_files (checkProj pathExists : String → Bool)
    (resOf : String → Int) (reproject : Bool) (module : String)
    (args : List (String × PyVal)) (fs : List String)
    (hproj : ∀ f ∈ fs, checkProj f = true) :
    IFImport.importedInputs
        (IFImport.importLoop checkProj pathExists resOf false reproject
          module args fs) =
      fs.filter (fun f => !pathExists f) := by
  induction fs with
  | nil => rfl
  | cons f rest ih =>
      have hf : checkProj f = true := hproj f (by simp)
      have hrest : ∀ g ∈ rest, checkProj g = true :=
        fun g hg => hproj g (by simp [hg])
      rw [IFImport.importLoop]
      rw [if_neg (by simp [hf])]
      by_cases he : pathExists f
      · rw [if_pos he, List.filter_cons]
        simp only [he, Bool.not_true]
        exact ih hrest
      · rw [if_neg he, List.filter_cons]
        simp only [he, Bool.not_false]
        rw [importedInputs_importFile_append, ih hrest]
        simp

/-- C8: in the module whose header declares it as i.s1.import
(src/gscpy/i_import/i.f.import.py), Finder.import_products issues no import
command at all when link is true; when link is false (and the projection
check passes on every file), the GRASS import module is invoked exactly for
the files that do not exist on disk, and files that exist are skipped
without being imported. -/
theorem finder_import_skips_existing_files (checkProj pathExists : String → Bool)
    (resOf : String → Int) (files : List String) (reproject : Bool)
    (hproj : ∀ f ∈ files, checkProj f = true) :
    IFImport.importProductsRun checkProj pathExists resOf files reproject
        true = [] ∧
    IFImport.importedInputs
        (IFImport.importProductsRun checkProj pathExists resOf files
          reproject false) =
      files.filter (fun f => !pathExists f) := by
  constructor
  · rfl
  · rw [IFImport.importProductsRun, if_neg (by simp)]
    exact importLoop_imports_missing_files checkProj pathExists resOf
      reproject _ _ files hproj

/-- Witness for C8 at a concrete file list where one file exists on disk
and one does not. -/
theorem finder_import_skips_existing_files_witness :
    IFImport.importProductsRun (fun _ => true) (fun f => f == "/p/a.tif")
        (fun _ => 20) ["/p/a.tif", "/p/b.tif"] false true = [] ∧
    IFImport.importedInputs
        (IFImport.importProductsRun (fun _ => true) (fun f => f == "/p/a.tif")
          (fun _ => 20) ["/p/a.tif", "/p/b.tif"] false false) =
      ["/p/a.tif", "/p/b.tif"].filter (fun f => !(f == "/p/a.tif")) :=
  finder_import_skips_existing_files (fun _ => true) (fun f => f == "/p/a.tif")
    (fun _ => 20) ["/p/a.tif", "/p/b.tif"] false (fun _ _ => rfl)

/-- C10: Database.__init__ raises ValueError exactly when both of t_srs and
t_srs_file are None, both are given, or the given t_srs_file names a path
that does not exist; in every other case the constructor succeeds and
stores the given t_srs (an int) with t_srs_file None, or the given
t_srs_file with t_srs None. -/
theorem database_init_validation (pathExists : String → Bool)
    (db_dir db_name : String) (t_srs : Option Int)
    (t_srs_file : Option String) (launch : Bool) :
    (exceptIsOk (GDatabase.Database.init pathExists db_dir db_name t_srs
        t_srs_file launch) = false ↔
      (t_srs = Option.none ∧ t_srs_file = Option.none) ∨
      (t_srs ≠ Option.none ∧ t_srs_file ≠ Option.none) ∨
      (∃ f, t_srs_file = some f ∧ pathExists f = false)) ∧
    (∀ n, t_srs = some n → t_srs_file = Option.none →
      GDatabase.Database.init pathExists db_dir db_name t_srs t_srs_file
          launch =
        .ok { t_srs := some n, t_srs_file := Option.none, db_name := db_name,
              dir := pathJoin db_dir db_name, launch := launch }) ∧
    (∀ f, t_srs = Option.none → t_srs_file = some f → pathExists f = true →
      GDatabase.Database.init pathExists db_dir db_name t_srs t_srs_file
          launch =
        .ok { t_srs := Option.none, t_srs_file := some f, db_name := db_name,
              dir := pathJoin db_dir db_name, launch := launch }) := by
  refine ⟨?_, ?_, ?_⟩
  · cases t_srs with
    | none =>
        cases t_srs_file with
        | none => simp [GDatabase.Database.init, exceptIsOk]
        | some f =>
            by_cases hf : pathExists f
            · simp [GDatabase.Database.init, exceptIsOk, hf]
            · simp only [Bool.not_eq_true] at hf
              simp [GDatabase.Database.init, exceptIsOk, hf]
    | some n =>
        cases t_srs_file with
        | none => simp [GDatabase.Database.init, exceptIsOk]
        | some f =>
            simp [GDatabase.Database.init, exceptIsOk]
  · intro n hn hf
    subst hn; subst hf
    simp [GDatabase.Database.init, exceptIsOk]
  · intro f hn hf hex
    subst hn; subst hf
    simp [GDatabase.Database.init, exceptIsOk, hex]

/-- Witness for C10: a successful construction from an EPSG code, and one
from an existing georeferenced file. -/
theorem database_init_validation_witness :
    GDatabase.Database.init (fun _ => true) "/grassdata" "germany"
        (some 32630) Option.none false =
      .ok { t_srs := some 32630, t_srs_file := Option.none,
            db_name := "germany", dir := pathJoin "/grassdata" "germany",
            launch := false } ∧
    GDatabase.Database.init (fun _ => true) "/grassdata" "germany"
        Option.none (some "/f.tif") false =
      .ok { t_srs := Option.none, t_srs_file := some "/f.tif",
            db_name := "germany", dir := pathJoin "/grassdata" "germany",
            launch := false } :=
  ⟨(database_init_validation (fun _ => true) "/grassdata" "germany"
      (some 32630) Option.none false).2.1 32630 rfl rfl,
   (database_init_validation (fun _ => true) "/grassdata" "germany"
      Option.none (some "/f.tif") false).2.2 "/f.tif" rfl rfl rfl⟩

/-- C3 (code behaviour at the failing input): the translation block of main
in pr.geocode.py compares the parsed geocoding_type string with the
multi-character literal Cross-Correlation using the identity operator is,
which is false for a string parsed from the command line, so the option
value Cross-Correlation is passed through to the wrapper untranslated; the
surrounding empty-string translations (t_srs to 4326, resolution_value to
20, offset, shapefile and the DEM options to None, a single polarization to
a one-element list) behave as the claim states. -/
theorem pr_geocode_type_never_translated :
    ∃ args, PrDotGeocode.mainTranslate
        { dir := "/data", outdir := "/data/out", shapefile := "",
          t_srs := "4326", resolution_value := "", scaling := "dB",
          geocoding_type := "Cross-Correlation", polarizations := "VV",
          offset := "", external_dem_file := "", external_dem_nan := "",
          pattern := "" } false true false = .ok args ∧
      args.geocoding_type = PyVal.str "Cross-Correlation" ∧
      args.t_srs = PyVal.int 4326 ∧
      args.resolution_value = PyVal.int 20 ∧
      args.polarizations = PyVal.strList ["VV"] ∧
      args.offset = PyVal.none ∧
      args.shapefile = PyVal.none ∧
      args.external_dem_file = PyVal.none ∧
      args.external_dem_nan = PyVal.none := by
  refine ⟨{ dir := "/data", outdir := "/data/out", pattern := Option.none,
            t_srs := PyVal.int 4326, resolution_value := PyVal.int 20,
            polarizations := PyVal.strList ["VV"], shapefile := PyVal.none,
            scaling := PyVal.str "dB",
            geocoding_type := PyVal.str "Cross-Correlation",
            removeS1BoderNoise := false, offset := PyVal.none,
            external_dem_file := PyVal.none, external_dem_nan := PyVal.none,
            externalDEMApplyEGM := true, test := false },
          ?_, rfl, rfl, rfl, rfl, rfl, rfl, rfl, rfl⟩
  rfl

/-- C5: the three code paths named by the spec are unrunnable: the bare
module-less import line of s1_download.py parses as no statement of the
Python fragment, print applied to a name without parentheses parses as no
statement of Python 3, and the translation underscore name resolves to a
NameError in pr.geocode.py, which neither defines nor imports it. -/
theorem unrunnable_code_paths :
    PySyntax.parseStmt (PySyntax.tokenize PySyntax.s1DownloadHeaderLine) =
      Option.none ∧
    PySyntax.parseStmt (PySyntax.tokenize PySyntax.ds1DownloadMainPrintLine) =
      Option.none ∧
    PySyntax.resolveName "_" = .error (.nameError "_") :=
  ⟨rfl, rfl, rfl⟩

/-- Sanity check on the statement parser: the import form with a module
name is accepted. -/
theorem import_with_module_parses :
    PySyntax.parseStmt (PySyntax.tokenize "import os") =
      some (.importStmt "os") := rfl

/-- Sanity check on the statement parser: the parenthesised print call of
Python 3 is accepted. -/
theorem print_call_parses :
    PySyntax.parseStmt (PySyntax.tokenize "print(options)") =
      some (.exprStmt (.call1 (.name "print") (.name "options"))) := rfl

/-- Sanity check on name resolution: an imported module alias of
pr.geocode.py resolves, as does the print builtin. -/
theorem known_names_resolve :
    PySyntax.resolveName "gs" = .ok () ∧
    PySyntax.resolveName "print" = .ok () := ⟨rfl, rfl⟩
